import Mathlib

/-!
Verification of the MastheadSearch component (search-with-autosuggest) and the
DDSVideoPlayer web component of the carbon-for-ibm-dotcom design system,
via a shallow embedding of their state containers and event handlers.
-/

set_option autoImplicit false

namespace CarbonMasthead

/-- Search view-state of the MastheadSearch component: the record managed by
the `useReducer` hook. Suggestion items are opaque to the state container,
so the embedding is parametric in their type `α`. -/
structure SearchState (α : Type) where
  val : String
  suggestions : List α
  prevSuggestions : List α
  suggestionContainerVisible : Bool
  isSearchOpen : Bool
  lc : String
  cc : String
deriving DecidableEq, Repr

/-- The reducer actions: the ten named action kinds dispatched by the
component, plus `other` for an action whose type string matches none of
them (the reducer's `default` branch). -/
inductive Action (α : Type) where
  | setVal (val : String)
  | emptySuggestions
  | setPrevSuggestions (prevSuggestions : List α)
  | setSuggestionsToPrevious
  | showSuggestionsContainer
  | hideSuggestionsContainer
  | setSearchOpen
  | setSearchClosed
  | setLc (lc : String)
  | setCc (cc : String)
  | other (tag : String)
deriving DecidableEq, Repr

/-- The `_reducer` function for the `useReducer` hook: each case copies the
state (`Object.assign({}, state, ...)`) overriding only the designated
field; the default case returns the state unchanged. -/
def _reducer {α : Type} (state : SearchState α) (action : Action α) : SearchState α :=
  match action with
  | .setVal v => { state with val := v }
  | .emptySuggestions => { state with suggestions := [] }
  | .setPrevSuggestions p => { state with prevSuggestions := p }
  | .setSuggestionsToPrevious => { state with suggestions := state.prevSuggestions }
  | .showSuggestionsContainer => { state with suggestionContainerVisible := true }
  | .hideSuggestionsContainer => { state with suggestionContainerVisible := false }
  | .setSearchOpen => { state with isSearchOpen := true }
  | .setSearchClosed => { state with isSearchOpen := false }
  | .setLc lc => { state with lc := lc }
  | .setCc cc => { state with cc := cc }
  | .other _ => state

/-- Initial state of the component: `val` comes from the `initialSearchTerm`
prop, falling back to the `q` query-string parameter (empty when absent),
via the JavaScript `initialSearchTerm || getValueFromQueryString() || ''`
chain; `isSearchOpen` comes from the `searchOpenOnload` prop; the locale
pair defaults to `en`/`us`. -/
def _initialState {α : Type} (initialSearchTerm : String) (queryStringValue : String)
    (searchOpenOnload : Bool) : SearchState α :=
  { val := if initialSearchTerm ≠ "" then initialSearchTerm else queryStringValue
    suggestions := []
    prevSuggestions := []
    suggestionContainerVisible := false
    isSearchOpen := searchOpenOnload
    lc := "en"
    cc := "us" }

/-- The JavaScript `trim` builtin: removes white space from both ends of
the string. -/
def jsTrim (s : String) : String :=
  String.mk (((s.data.dropWhile Char.isWhitespace).reverse.dropWhile
    Char.isWhitespace).reverse)

/-- `_trimAndLower`: lower-cases the text field and trims surrounding white
space (`valueString.toLowerCase().trim()`). -/
def _trimAndLower (valueString : String) : String :=
  jsTrim valueString.toLower

/-- Characters special in a regular-expression pattern. -/
def regexSpecialChars : List Char :=
  ['\\', '^', '$', '.', '*', '+', '?', '(', ')', '[', ']', Char.ofNat 123, Char.ofNat 125, '|']

/-- Modelled from the spec: the `escapeRegExp` utility imported from the
repository's utilities package (not included under `src/`), which escapes
characters special in a pattern match by prefixing a backslash, so the
text is safe for use in a pattern match. -/
def escapeRegExp (s : String) : String :=
  String.join (s.data.map fun c =>
    if c ∈ regexSpecialChars then String.mk ['\\', c] else String.singleton c)

/-- The request object handed to `onSuggestionsFetchRequested` by the
suggestion engine: the current input value and the reason string. -/
structure FetchRequest where
  value : String
  reason : String
deriving DecidableEq, Repr

/-- `onSuggestionsClearedRequested`: empties the active suggestion list and
hides the suggestion container. -/
def onSuggestionsClearedRequested {α : Type} (s : SearchState α) : SearchState α :=
  _reducer (_reducer s .emptySuggestions) .hideSuggestionsContainer

/-- `onSuggestionsFetchRequest`: on reason `input-changed`, normalizes the
input (escape, lower-case, trim) and queries the provider (the remote
`SearchTypeaheadAPI.getResults` or the caller-supplied
`customTypeaheadApi`); a defined response is stored in the previous
suggestions cache, the active list is set to the cache, and the container
is shown; an undefined response dispatches nothing. Reason
`escape-pressed` clears; any other reason re-shows the cached previous
list. -/
def onSuggestionsFetchRequest {α : Type} (provider : String → Option (List α))
    (s : SearchState α) (request : FetchRequest) : SearchState α :=
  let searchValue := _trimAndLower (escapeRegExp request.value)
  if request.reason = "input-changed" then
    match provider searchValue with
    | some response =>
        _reducer
          (_reducer (_reducer s (.setPrevSuggestions response)) .setSuggestionsToPrevious)
          .showSuggestionsContainer
    | none => s
  else if request.reason = "escape-pressed" then
    onSuggestionsClearedRequested s
  else
    _reducer (_reducer s .setSuggestionsToPrevious) .showSuggestionsContainer

/-- Hexadecimal digit (upper case) for a value below 16. -/
def hexDigit (n : Nat) : Char :=
  if n < 10 then Char.ofNat (48 + n) else Char.ofNat (55 + n)

/-- Percent-encoding of one byte: `%` followed by two upper-case hex digits. -/
def percentByte (b : Nat) : String :=
  String.mk ['%', hexDigit (b / 16 % 16), hexDigit (b % 16)]

/-- UTF-8 bytes of a Unicode code point. -/
def utf8Bytes (n : Nat) : List Nat :=
  if n < 128 then [n]
  else if n < 2048 then [192 + n / 64, 128 + n % 64]
  else if n < 65536 then [224 + n / 4096, 128 + n / 64 % 64, 128 + n % 64]
  else [240 + n / 262144, 128 + n / 4096 % 64, 128 + n / 64 % 64, 128 + n % 64]

/-- Characters the JavaScript `encodeURIComponent` builtin leaves as-is:
letters, digits, and `- _ . ! ~ * ' ( )`. -/
def uriUnreserved (c : Char) : Bool :=
  c.isAlphanum || c ∈ ['-', '_', '.', '!', '~', '*', Char.ofNat 39, '(', ')']

/-- The JavaScript `encodeURIComponent` builtin: percent-encodes the UTF-8
bytes of every character outside the unreserved set. -/
def encodeURIComponent (s : String) : String :=
  String.join (s.data.map fun c =>
    if uriUnreserved c then String.singleton c
    else String.join ((utf8Bytes c.toNat).map percentByte))

/-- `_redirectUrl`: the configured search endpoint from the
`SEARCH_REDIRECT_ENDPOINT` environment variable, falling back to the fixed
IBM search URL when unset. -/
def _redirectUrl (searchRedirectEndpoint : Option String) : String :=
  searchRedirectEndpoint.getD "https://www.ibm.com/search?lnk=mhsrch"

/-- `getRedirect`: the outbound navigation URL, built by string
interpolation from the endpoint, the percent-encoded query, and the
state's locale pair. -/
def getRedirect {α : Type} (searchRedirectEndpoint : Option String) (s : SearchState α)
    (value : String) : String :=
  _redirectUrl searchRedirectEndpoint ++ "&q=" ++ encodeURIComponent value ++
    "&lang=" ++ s.lc ++ "&cc=" ++ s.cc

/-- Observable browser effects of a suggestion selection. -/
inductive Effect where
  | navigate (url : String)
  | emitNoRedirect (value : String)
  | preventDefault
deriving DecidableEq, Repr

/-- `onSearchNoRedirect`: dispatches one `onSearchNoRedirect` custom event
carrying the value. -/
def onSearchNoRedirect (val : String) : List Effect :=
  [.emitNoRedirect val]

/-- `onSuggestionSelected`: with `searchNoRedirect` configured, emits the
no-redirect notification and cancels default navigation; otherwise sets
`root.parent.location.href` to the redirect URL. -/
def onSuggestionSelected {α : Type} (searchNoRedirect : Bool)
    (searchRedirectEndpoint : Option String) (s : SearchState α)
    (suggestionValue : String) : List Effect :=
  if searchNoRedirect then
    onSearchNoRedirect suggestionValue ++ [.preventDefault]
  else
    [.navigate (getRedirect searchRedirectEndpoint s suggestionValue)]

/-- `handleHideSearch`: on an Escape keypress, closes the search only when
the suggestion container is not visible. -/
def handleHideSearch {α : Type} (key : String) (s : SearchState α) : SearchState α :=
  if key = "Escape" then
    if ¬ s.suggestionContainerVisible then _reducer s .setSearchClosed else s
  else s

/-- `handleClickOutside`: a click outside the masthead subtree closes the
search only when the stored text value is empty. -/
def handleClickOutside {α : Type} (outsideMasthead : Bool) (s : SearchState α) : SearchState α :=
  if outsideMasthead then
    if s.val.length = 0 then _reducer s .setSearchClosed else s
  else s

/-- `shouldRenderSuggestions`: render suggestions only when the trimmed
input length reaches the `renderValue` prop. -/
def shouldRenderSuggestions (renderValue : Nat) (value : String) : Bool :=
  (jsTrim value).length ≥ renderValue

/-- Default of the `renderValue` prop (`MastheadSearch.defaultProps`). -/
def defaultRenderValue : Nat := 3

/-- The locale record returned by `LocaleAPI.getLang`. -/
structure Locale where
  lc : String
  cc : String
deriving DecidableEq, Repr

/-- The abort signal of the (possibly polyfilled) `AbortController`. -/
structure AbortSignal where
  aborted : Bool
deriving DecidableEq, Repr

/-- `abortController.abort()`: marks the signal aborted. -/
def abortControllerAbort (s : AbortSignal) : AbortSignal :=
  { s with aborted := true }

/-- The locale-resolution effect run on mount: a fresh abort controller is
created, `abort()` is invoked immediately (line 136 of the source, before
the asynchronous call is issued), the unmount cleanup aborts again when
the component unmounted while the call was in flight, and the resolved
response is applied only when the signal is not aborted and the response
is defined. -/
def localeEffect {α : Type} (unmountedWhileInFlight : Bool) (response : Option Locale)
    (s : SearchState α) : SearchState α :=
  let signal : AbortSignal := { aborted := false }
  let signal := abortControllerAbort signal
  let signal := if unmountedWhileInFlight then abortControllerAbort signal else signal
  match response with
  | some r =>
      if ¬ signal.aborted then _reducer (_reducer s (.setLc r.lc)) (.setCc r.cc) else s
  | none => s

/-- `onChange`: stores the new input value. -/
def onChange {α : Type} (newValue : String) (s : SearchState α) : SearchState α :=
  _reducer s (.setVal newValue)

/-- `resetSearch`: closes the search and clears the input. -/
def resetSearch {α : Type} (s : SearchState α) : SearchState α :=
  _reducer (_reducer s .setSearchClosed) (.setVal "")

/-- `searchIconClick` (state part): when the search is open with non-empty
text the click submits (redirect or notification, no dispatch); otherwise
it opens the search. -/
def searchIconClick {α : Type} (s : SearchState α) : SearchState α :=
  if s.isSearchOpen ∧ s.val.length ≠ 0 then s else _reducer s .setSearchOpen

/-- The complete component-level operations of the search widget, each a
handler of the component run to completion. -/
inductive SearchOp (α : Type) where
  | fetchRequest (request : FetchRequest) (response : Option (List α))
  | suggestionsCleared
  | textChanged (newValue : String)
  | keydown (key : String)
  | documentClick (outsideMasthead : Bool)
  | iconClick
  | closeButton
  | localeResolved (unmounted : Bool) (response : Option Locale)

/-- Runs one component-level operation on the state. -/
def runOp {α : Type} (s : SearchState α) (op : SearchOp α) : SearchState α :=
  match op with
  | .fetchRequest req resp => onSuggestionsFetchRequest (fun _ => resp) s req
  | .suggestionsCleared => onSuggestionsClearedRequested s
  | .textChanged v => onChange v s
  | .keydown k => handleHideSearch k s
  | .documentClick b => handleClickOutside b s
  | .iconClick => searchIconClick s
  | .closeButton => resetSearch s
  | .localeResolved u r => localeEffect u r s

/-- Runs a sequence of component-level operations. -/
def runOps {α : Type} (s : SearchState α) (ops : List (SearchOp α)) : SearchState α :=
  List.foldl runOp s ops

/-- The suggestions invariant: the active list is empty or equal to the
previous-suggestions cache. -/
def suggestionsInv {α : Type} (s : SearchState α) : Prop :=
  s.suggestions = [] ∨ s.suggestions = s.prevSuggestions

/-- The state reached from the initial state by a completed fetch followed
by the first dispatch of a second fetch: `setPrevSuggestions [1]`,
`setSuggestionsToPrevious`, then `setPrevSuggestions [2]`. -/
def c2BadState : SearchState Nat :=
  List.foldl _reducer (_initialState "" "" false)
    [Action.setPrevSuggestions [1], Action.setSuggestionsToPrevious,
      Action.setPrevSuggestions [2]]

end CarbonMasthead

namespace CarbonVideoPlayer

/-- Modelled from the spec: the two-valued content state imported from
`./defs` (not included under `src/`) — the thumbnail is shown or the video
is playing. -/
inductive VIDEO_PLAYER_CONTENT_STATE where
  | THUMBNAIL
  | VIDEO
deriving DecidableEq, Repr

/-- The DDSVideoPlayer element's reactive properties, together with the
`aria-label` attribute that the `updated` hook maintains. The duration and
caption formatters are function-valued properties; `formatDuration` maps
the millisecond duration to its display text (possibly none) and
`formatCaption` composes it with the name. -/
structure VideoPlayer where
  contentState : VIDEO_PLAYER_CONTENT_STATE
  duration : Option Nat
  formatCaption : Option String → String → String
  formatDuration : Option Nat → Option String
  hideCaption : Bool
  name : String
  thumbnailUrl : String
  videoId : Option String
  aspectRatio : Option String
  ariaLabel : Option String

/-- Field initializers of the element class: the content state starts at
`THUMBNAIL`; the formatters start at the package defaults supplied here as
parameters. -/
def initVideoPlayer (formatCaption : Option String → String → String)
    (formatDuration : Option Nat → Option String) : VideoPlayer :=
  { contentState := .THUMBNAIL
    duration := none
    formatCaption := formatCaption
    formatDuration := formatDuration
    hideCaption := false
    name := ""
    thumbnailUrl := "data:image/svg+xml,%3Csvg xmlns=\"http://www.w3.org/2000/svg\"/%3E"
    videoId := none
    aspectRatio := none
    ariaLabel := none }

/-- Detail payload of the content-state-change custom event. -/
structure ContentStateChangeDetail where
  videoId : Option String
  contentState : VIDEO_PLAYER_CONTENT_STATE
deriving DecidableEq, Repr

/-- `_handleClickOverlay`: sets the content state to `VIDEO` and dispatches
one content-state-change event carrying the video id and the new state. -/
def _handleClickOverlay (p : VideoPlayer) : VideoPlayer × List ContentStateChangeDetail :=
  ({ p with contentState := VIDEO_PLAYER_CONTENT_STATE.VIDEO },
    [{ videoId := p.videoId, contentState := VIDEO_PLAYER_CONTENT_STATE.VIDEO }])

/-- The duration value handed to `formatDuration`:
`!duration ? duration : duration * 1000` — a falsy duration (absent or
zero) is passed through, otherwise seconds become milliseconds. -/
def effectiveDuration (duration : Option Nat) : Option Nat :=
  match duration with
  | none => none
  | some 0 => some 0
  | some d => some (d * 1000)

/-- The caption: the caption formatter applied to the formatted duration
and the name. -/
def videoCaption (p : VideoPlayer) : String :=
  p.formatCaption (p.formatDuration (effectiveDuration p.duration)) p.name

/-- The `changedProperties` map handed to the `updated` hook, restricted to
the properties the hook inspects or that feed the caption. -/
structure ChangedProperties where
  duration : Bool
  formatCaption : Bool
  formatDuration : Bool
  name : Bool
deriving DecidableEq, Repr

/-- The `updated` lifecycle hook: when `duration`, `formatCaption` or
`name` changed, recompute the caption and, when it is truthy (non-empty),
mirror it into the `aria-label` attribute. -/
def updated (changed : ChangedProperties) (p : VideoPlayer) : VideoPlayer :=
  if changed.duration || changed.formatCaption || changed.name then
    if videoCaption p ≠ "" then { p with ariaLabel := some (videoCaption p) } else p
  else p

/-- The element's exposed operations: the overlay click handler, the
`updated` lifecycle hook, and the reactive property setters. -/
inductive VideoOp where
  | clickOverlay
  | updatedHook (changed : ChangedProperties)
  | setDuration (d : Option Nat)
  | setName (n : String)
  | setHideCaption (b : Bool)
  | setVideoId (v : Option String)
  | setAspectRatio (a : Option String)
deriving DecidableEq

/-- Runs one exposed operation, returning the new element state and the
dispatched content-state-change events. -/
def videoStep (p : VideoPlayer) (op : VideoOp) : VideoPlayer × List ContentStateChangeDetail :=
  match op with
  | .clickOverlay => _handleClickOverlay p
  | .updatedHook changed => (updated changed p, [])
  | .setDuration d => ({ p with duration := d }, [])
  | .setName n => ({ p with name := n }, [])
  | .setHideCaption b => ({ p with hideCaption := b }, [])
  | .setVideoId v => ({ p with videoId := v }, [])
  | .setAspectRatio a => ({ p with aspectRatio := a }, [])

/-- A concrete player already in the `VIDEO` content state, with simple
concrete formatters. -/
def c8Player : VideoPlayer :=
  { initVideoPlayer (fun _ n => n) (fun _ => none) with
      contentState := VIDEO_PLAYER_CONTENT_STATE.VIDEO }

/-- A concrete player whose caption evaluates to `"XN"`: the duration
formatter always yields `"X"`, the caption formatter appends the name. -/
def c9Player : VideoPlayer :=
  { initVideoPlayer (fun d n => d.getD "" ++ n) (fun _ => some "X") with
      name := "N" }

end CarbonVideoPlayer

open CarbonMasthead CarbonVideoPlayer

theorem localeEffect_id {α : Type} (unmounted : Bool)
    (response : Option CarbonMasthead.Locale) (s : SearchState α) :
    localeEffect unmounted response s = s := by
  cases response with
  | none => rfl
  | some r => cases unmounted <;> rfl

theorem updated_contentState (changed : ChangedProperties) (p : VideoPlayer) :
    (updated changed p).contentState = p.contentState := by
  unfold updated
  split
  · split <;> rfl
  · rfl

theorem runOp_inv {α : Type} (s : SearchState α) (op : SearchOp α)
    (h : suggestionsInv s) : suggestionsInv (runOp s op) := by
  cases op with
  | fetchRequest req resp =>
      by_cases hreason : req.reason = "input-changed"
      · cases resp with
        | some r =>
            simp [runOp, onSuggestionsFetchRequest, hreason, _reducer, suggestionsInv]
        | none =>
            simpa [runOp, onSuggestionsFetchRequest, hreason] using h
      · by_cases hesc : req.reason = "escape-pressed"
        · simp [runOp, onSuggestionsFetchRequest, hreason, hesc,
            onSuggestionsClearedRequested, _reducer, suggestionsInv]
        · simp [runOp, onSuggestionsFetchRequest, hreason, hesc, _reducer, suggestionsInv]
  | suggestionsCleared =>
      simp [runOp, onSuggestionsClearedRequested, _reducer, suggestionsInv]
  | textChanged v =>
      simpa [runOp, onChange, _reducer, suggestionsInv] using h
  | keydown k =>
      simp only [runOp, handleHideSearch]
      split
      · split
        · simpa [_reducer, suggestionsInv] using h
        · exact h
      · exact h
  | documentClick b =>
      simp only [runOp, handleClickOutside]
      split
      · split
        · simpa [_reducer, suggestionsInv] using h
        · exact h
      · exact h
  | iconClick =>
      simp only [runOp, searchIconClick]
      split
      · exact h
      · simpa [_reducer, suggestionsInv] using h
  | closeButton =>
      simpa [runOp, resetSearch, _reducer, suggestionsInv] using h
  | localeResolved u r =>
      simp only [runOp]
      rw [localeEffect_id]
      exact h

theorem runOps_inv {α : Type} (s : SearchState α) (ops : List (SearchOp α))
    (h : suggestionsInv s) : suggestionsInv (runOps s ops) := by
  induction ops generalizing s with
  | nil => exact h
  | cons op rest ih => exact ih (runOp s op) (runOp_inv s op h)

/-- C1: for every suggestion-fetch request whose reason is `input-changed`
and whose provider returns a defined result, after the operation the
previous-suggestions cache equals that result, the active suggestions list
equals the cache, and the suggestion-container visibility flag is true. -/
theorem spec_C1_fetch_success {α : Type} (provider : String → Option (List α))
    (s : SearchState α) (request : FetchRequest) (r : List α)
    (hreason : request.reason = "input-changed")
    (hresp : provider (_trimAndLower (escapeRegExp request.value)) = some r) :
    (onSuggestionsFetchRequest provider s request).prevSuggestions = r ∧
    (onSuggestionsFetchRequest provider s request).suggestions =
      (onSuggestionsFetchRequest provider s request).prevSuggestions ∧
    (onSuggestionsFetchRequest provider s request).suggestionContainerVisible = true := by
  simp [onSuggestionsFetchRequest, hreason, hresp, _reducer]

/-- Witness for C1 at a concrete provider, state and request. -/
theorem spec_C1_witness :
    (onSuggestionsFetchRequest (fun _ => some [1]) (_initialState "" "" false)
      { value := "cloud", reason := "input-changed" } : SearchState Nat).prevSuggestions = [1] ∧
    (onSuggestionsFetchRequest (fun _ => some [1]) (_initialState "" "" false)
      { value := "cloud", reason := "input-changed" } : SearchState Nat).suggestions =
      (onSuggestionsFetchRequest (fun _ => some [1]) (_initialState "" "" false)
        { value := "cloud", reason := "input-changed" } : SearchState Nat).prevSuggestions ∧
    (onSuggestionsFetchRequest (fun _ => some [1]) (_initialState "" "" false)
      { value := "cloud", reason := "input-changed" }
        : SearchState Nat).suggestionContainerVisible = true :=
  spec_C1_fetch_success (fun _ => some [1]) (_initialState "" "" false)
    { value := "cloud", reason := "input-changed" } [1] rfl rfl

/-- C2 (counterexample): after the raw reducer-action sequence
`setPrevSuggestions [1]`, `setSuggestionsToPrevious`,
`setPrevSuggestions [2]` from the initial state, the active suggestions
list is neither empty nor equal to the previous-suggestions cache, so the
invariant does not hold in every state reachable by arbitrary reducer
actions. -/
theorem spec_C2_counterexample :
    ¬ (c2BadState.suggestions = [] ∨
      c2BadState.suggestions = c2BadState.prevSuggestions) := by
  decide

/-- C2 (amended): no single reducer action partially merges — each action
leaves the suggestions list unchanged, empties it, or replaces it
wholesale with the previous-suggestions cache — and the invariant
(suggestions empty or equal to the cache) holds in every state reachable
from the initial state by complete component-level operations. -/
theorem spec_C2_invariant {α : Type} (s : SearchState α) (a : Action α)
    (initialSearchTerm queryStringValue : String) (searchOpenOnload : Bool)
    (ops : List (SearchOp α)) :
    ((_reducer s a).suggestions = s.suggestions ∨
      (_reducer s a).suggestions = [] ∨
      (_reducer s a).suggestions = s.prevSuggestions) ∧
    suggestionsInv
      (runOps (_initialState initialSearchTerm queryStringValue searchOpenOnload) ops) := by
  constructor
  · cases a <;> simp [_reducer]
  · exact runOps_inv _ ops (Or.inl rfl)

/-- C3: selecting a suggestion with redirect suppression configured emits
exactly one no-redirect notification carrying the selected value (and a
default-navigation cancellation), never a navigation; without suppression
the browser is navigated to the configured endpoint with the
percent-encoded query and the state's locale pair interpolated. -/
theorem spec_C3_suggestion_selected {α : Type} (searchRedirectEndpoint : Option String)
    (s : SearchState α) (v : String) :
    onSuggestionSelected true searchRedirectEndpoint s v =
      [Effect.emitNoRedirect v, Effect.preventDefault] ∧
    List.countP
      (fun e => match e with | Effect.emitNoRedirect _ => true | _ => false)
      (onSuggestionSelected true searchRedirectEndpoint s v) = 1 ∧
    List.countP
      (fun e => match e with | Effect.navigate _ => true | _ => false)
      (onSuggestionSelected true searchRedirectEndpoint s v) = 0 ∧
    onSuggestionSelected false searchRedirectEndpoint s v =
      [Effect.navigate (_redirectUrl searchRedirectEndpoint ++ "&q=" ++
        encodeURIComponent v ++ "&lang=" ++ s.lc ++ "&cc=" ++ s.cc)] :=
  ⟨rfl, rfl, rfl, rfl⟩

/-- C4 (code evaluation): the locale effect never applies the response —
`abort()` runs at the start of the effect, before the asynchronous call,
so the cancellation flag is already set when a defined response arrives
even while the component stays mounted, and the state is returned
unchanged. -/
theorem spec_C4_locale_never_applied {α : Type} (unmounted : Bool)
    (response : Option CarbonMasthead.Locale) (s : SearchState α) :
    localeEffect unmounted response s = s :=
  localeEffect_id unmounted response s

/-- C5: an Escape keypress closes the widget exactly when the suggestion
container is not visible; a click outside the masthead subtree closes the
widget exactly when the stored text is empty, and leaves the open state
unchanged when the text is non-empty. -/
theorem spec_C5_dismissal {α : Type} (s : SearchState α) (outsideMasthead : Bool) :
    (s.suggestionContainerVisible = true → handleHideSearch "Escape" s = s) ∧
    (s.suggestionContainerVisible = false →
      handleHideSearch "Escape" s = { s with isSearchOpen := false }) ∧
    (outsideMasthead = true → s.val.length = 0 →
      handleClickOutside outsideMasthead s = { s with isSearchOpen := false }) ∧
    (outsideMasthead = true → s.val.length ≠ 0 →
      handleClickOutside outsideMasthead s = s) ∧
    (s.val.length ≠ 0 →
      (handleClickOutside outsideMasthead s).isSearchOpen = s.isSearchOpen) := by
  refine ⟨?_, ?_, ?_, ?_, ?_⟩
  · intro hvis
    simp [handleHideSearch, hvis]
  · intro hvis
    simp [handleHideSearch, hvis, _reducer]
  · intro hout hval
    simp [handleClickOutside, hout, hval, _reducer]
  · intro hout hval
    simp [handleClickOutside, hout, hval]
  · intro hval
    cases outsideMasthead <;> simp [handleClickOutside, hval]

/-- Witness for C5 at a concrete state with hidden suggestion panel and
non-empty text. -/
theorem spec_C5_witness :
    handleHideSearch "Escape" (_initialState "abc" "" true : SearchState Nat) =
      { (_initialState "abc" "" true : SearchState Nat) with isSearchOpen := false } ∧
    handleClickOutside true (_initialState "abc" "" true : SearchState Nat) =
      (_initialState "abc" "" true : SearchState Nat) := by
  have h := spec_C5_dismissal (_initialState "abc" "" true : SearchState Nat) true
  exact ⟨h.2.1 rfl, h.2.2.2.1 rfl (by decide)⟩

/-- C6: the suggestion-rendering gate returns false for every input whose
trimmed length is below the configured minimum, returns true exactly when
the trimmed length reaches it, and the minimum defaults to 3. -/
theorem spec_C6_render_gate (renderValue : Nat) (value : String) :
    ((jsTrim value).length < renderValue →
      shouldRenderSuggestions renderValue value = false) ∧
    (shouldRenderSuggestions renderValue value = true ↔
      renderValue ≤ (jsTrim value).length) ∧
    defaultRenderValue = 3 := by
  refine ⟨?_, ?_, rfl⟩
  · intro h
    simp only [shouldRenderSuggestions, ge_iff_le, decide_eq_false_iff_not, not_le]
    exact h
  · simp [shouldRenderSuggestions]

/-- Witness for C6 at concrete inputs below and at the default minimum. -/
theorem spec_C6_witness :
    shouldRenderSuggestions defaultRenderValue "ab " = false ∧
    (shouldRenderSuggestions defaultRenderValue "abc" = true ↔
      defaultRenderValue ≤ (jsTrim "abc").length) :=
  ⟨(spec_C6_render_gate defaultRenderValue "ab ").1 (by decide),
    (spec_C6_render_gate defaultRenderValue "abc").2.1⟩

/-- C7: a suggestion fetch whose provider returns an undefined result, and
a locale call whose response is undefined, leave the entire search
view-state unchanged; moreover the fetch consults the provider only at the
single normalized query, so no retry or second query is attempted. -/
theorem spec_C7_undefined_leaves_state {α : Type} (provider : String → Option (List α))
    (s : SearchState α) (request : FetchRequest) (unmounted : Bool)
    (hreason : request.reason = "input-changed")
    (hresp : provider (_trimAndLower (escapeRegExp request.value)) = none) :
    onSuggestionsFetchRequest provider s request = s ∧
    localeEffect unmounted (none : Option CarbonMasthead.Locale) s = s ∧
    (∀ provider2 : String → Option (List α),
      provider2 (_trimAndLower (escapeRegExp request.value)) =
        provider (_trimAndLower (escapeRegExp request.value)) →
      onSuggestionsFetchRequest provider2 s request =
        onSuggestionsFetchRequest provider s request) := by
  refine ⟨?_, localeEffect_id unmounted none s, ?_⟩
  · simp [onSuggestionsFetchRequest, hreason, hresp]
  · intro provider2 hsame
    simp [onSuggestionsFetchRequest, hreason, hsame]

/-- Witness for C7 at a concrete provider returning undefined. -/
theorem spec_C7_witness :
    onSuggestionsFetchRequest (fun _ => (none : Option (List Nat)))
      (_initialState "" "" false) { value := "ab", reason := "input-changed" } =
      _initialState "" "" false ∧
    localeEffect false (none : Option CarbonMasthead.Locale)
      (_initialState "" "" false : SearchState Nat) = _initialState "" "" false := by
  have h := spec_C7_undefined_leaves_state (fun _ => (none : Option (List Nat)))
    (_initialState "" "" false) { value := "ab", reason := "input-changed" } false rfl rfl
  exact ⟨h.1, h.2.1⟩

/-- C8: the content state starts at `THUMBNAIL`; the overlay click handler
sets it to `VIDEO` and emits exactly one state-change event carrying the
video id and the new state; every other exposed operation leaves the
content state unchanged and emits no state-change event, so no exposed
operation ever transitions the state from `VIDEO` back to `THUMBNAIL`. -/
theorem spec_C8_content_state_machine (fc : Option String → String → String)
    (fd : Option Nat → Option String) (p : VideoPlayer) (op : VideoOp) :
    (initVideoPlayer fc fd).contentState = VIDEO_PLAYER_CONTENT_STATE.THUMBNAIL ∧
    (_handleClickOverlay p).1.contentState = VIDEO_PLAYER_CONTENT_STATE.VIDEO ∧
    (_handleClickOverlay p).2 =
      [{ videoId := p.videoId, contentState := VIDEO_PLAYER_CONTENT_STATE.VIDEO }] ∧
    (op ≠ VideoOp.clickOverlay →
      (videoStep p op).1.contentState = p.contentState ∧ (videoStep p op).2 = []) ∧
    (p.contentState = VIDEO_PLAYER_CONTENT_STATE.VIDEO →
      (videoStep p op).1.contentState = VIDEO_PLAYER_CONTENT_STATE.VIDEO) := by
  refine ⟨rfl, rfl, rfl, ?_, ?_⟩
  · intro hop
    cases op with
    | clickOverlay => exact absurd rfl hop
    | updatedHook changed => exact ⟨updated_contentState changed p, rfl⟩
    | setDuration d => exact ⟨rfl, rfl⟩
    | setName n => exact ⟨rfl, rfl⟩
    | setHideCaption b => exact ⟨rfl, rfl⟩
    | setVideoId v => exact ⟨rfl, rfl⟩
    | setAspectRatio a => exact ⟨rfl, rfl⟩
  · intro hvid
    cases op with
    | clickOverlay => rfl
    | updatedHook changed => exact (updated_contentState changed p).trans hvid
    | setDuration d => exact hvid
    | setName n => exact hvid
    | setHideCaption b => exact hvid
    | setVideoId v => exact hvid
    | setAspectRatio a => exact hvid

/-- Witness for C8 at a concrete player in the `VIDEO` state and a
non-click operation. -/
theorem spec_C8_witness :
    (videoStep c8Player (VideoOp.setName "x")).1.contentState =
      VIDEO_PLAYER_CONTENT_STATE.VIDEO ∧
    (videoStep c8Player (VideoOp.setName "x")).2 = [] := by
  have h := spec_C8_content_state_machine (fun _ n => n) (fun _ => none)
    c8Player (VideoOp.setName "x")
  exact ⟨h.2.2.2.2 rfl, (h.2.2.2.1 (by decide)).2⟩

/-- C9 (counterexample): a change of the duration formatter alone — a
formatter attribute — does not trigger the `updated` recomputation: on the
concrete player whose caption evaluates to `"XN"`, the `aria-label` stays
unset instead of being mirrored to the caption. -/
theorem spec_C9_counterexample :
    ¬ ((updated
        { duration := false, formatCaption := false, formatDuration := true, name := false }
        c9Player).ariaLabel = some (videoCaption c9Player)) := by
  intro h
  exact Option.noConfusion h

/-- C9 (amended): the caption is recomputed and mirrored into `aria-label`
exactly when `duration`, `name` or the caption formatter changed (a change
of the duration formatter alone does not trigger it) and the recomputed
caption is non-empty; when none of the three trigger properties changed
the player is left unchanged. -/
theorem spec_C9_caption_mirroring (changed : ChangedProperties) (p : VideoPlayer)
    (htrig : (changed.duration || changed.formatCaption || changed.name) = true)
    (hcap : videoCaption p ≠ "") :
    (updated changed p).ariaLabel = some (videoCaption p) ∧
    (∀ changed2 : ChangedProperties,
      (changed2.duration || changed2.formatCaption || changed2.name) = false →
      updated changed2 p = p) := by
  constructor
  · simp [updated, htrig, hcap]
  · intro changed2 h2
    simp [updated, h2]

/-- Witness for C9 at a concrete change set and player. -/
theorem spec_C9_witness :
    (updated
      { duration := true, formatCaption := false, formatDuration := false, name := false }
      c9Player).ariaLabel = some (videoCaption c9Player) :=
  (spec_C9_caption_mirroring
    { duration := true, formatCaption := false, formatDuration := false, name := false }
    c9Player rfl (by decide)).1

/-- C10: the reducer is total and frame-preserving — each of the ten named
action kinds updates only its designated field, and an action of any other
kind returns the state unchanged. -/
theorem spec_C10_reducer_total_frame {α : Type} (s : SearchState α) (v : String)
    (l : List α) (lc cc tag : String) :
    _reducer s (.setVal v) = { s with val := v } ∧
    _reducer s .emptySuggestions = { s with suggestions := [] } ∧
    _reducer s (.setPrevSuggestions l) = { s with prevSuggestions := l } ∧
    _reducer s .setSuggestionsToPrevious = { s with suggestions := s.prevSuggestions } ∧
    _reducer s .showSuggestionsContainer = { s with suggestionContainerVisible := true } ∧
    _reducer s .hideSuggestionsContainer = { s with suggestionContainerVisible := false } ∧
    _reducer s .setSearchOpen = { s with isSearchOpen := true } ∧
    _reducer s .setSearchClosed = { s with isSearchOpen := false } ∧
    _reducer s (.setLc lc) = { s with lc := lc } ∧
    _reducer s (.setCc cc) = { s with cc := cc } ∧
    _reducer s (.other tag) = s :=
  ⟨rfl, rfl, rfl, rfl, rfl, rfl, rfl, rfl, rfl, rfl, rfl⟩
